import Mathlib

/-!
Verification development for the conversational escalation session engine of the
help-desk chat widget (`frontend/src/components/ChatWidget.tsx`) and the
operator-facing transcript merge (`OperatorPage`).

The embedding models the widget as a state machine: React `useState` fields
become record fields, each event handler becomes a pure function from state to
state (paired with the list of backend calls it issues), and the `useEffect`
persistence hooks become an explicit storage-synchronisation step.  Timestamps
(`Date` values) are modelled as integer milliseconds; `localStorage` is a
record of typed slots with an availability flag, and an unavailable store makes
reads fail with `Except.error` exactly where the source leaves
`localStorage.getItem` unguarded.
-/

namespace HelpDesk

/-- Interface language of the widget (`'ru' | 'kz'`). -/
inductive Lang where
  | ru
  | kz
deriving DecidableEq, Repr

/-- The `Lang` value as the string stored under the `LANGUAGE` key. -/
def Lang.code : Lang → String
  | .ru => "ru"
  | .kz => "kz"

/-- A knowledge-base citation attached to an assistant reply. -/
structure KBSource where
  category : String
  subcategory : String
  question : String
deriving DecidableEq, Repr

/-- The `result` payload of a tool call (fields the widget reads). -/
structure ToolCallPayload where
  success : Bool
  escalation_id : Option String
  ticket_number : Option String
deriving DecidableEq, Repr

/-- The `ToolCallResult` of the API client: a named tool call with its result.
The widget accesses the result with optional chaining (`tool_call.result?`),
so the result is modelled as optional. -/
structure ToolCallResult where
  name : String
  result : Option ToolCallPayload
deriving DecidableEq, Repr

/-- One timeline entry of the widget (`interface Message` in the source). -/
structure ChatMessage where
  id : String
  content : String
  isBot : Bool
  isOperator : Bool
  timestamp : Int
  sources : Option (List KBSource)
  canAutoResolve : Option Bool
  toolCall : Option ToolCallResult
deriving DecidableEq, Repr

/-- A backend message carrying a timestamp (`{content, timestamp}` entries of
`client_messages` / `operator_messages`). -/
structure TimedMsg where
  content : String
  timestamp : Int
deriving DecidableEq, Repr

/-- A pre-escalation conversation-history entry (`{content, is_user}`). -/
structure HistMsg where
  content : String
  is_user : Bool
deriving DecidableEq, Repr

/-- The escalation record returned by `chatApi.getEscalation` (fields the
widget and the operator page read). -/
structure Escalation where
  status : String
  created_at : Int
  conversation_history : Option (List HistMsg)
  client_messages : Option (List TimedMsg)
  operator_messages : Option (List TimedMsg)
deriving DecidableEq, Repr

/-- The payload of a successful `chatApi.send` response. -/
structure ChatResponseData where
  response : String
  sources : List KBSource
  can_auto_resolve : Bool
  tool_call : Option ToolCallResult
deriving DecidableEq, Repr

/-- A `{content, is_user}` pair sent as conversation history to the assistant
endpoint (`ChatMessage` of the API client). -/
structure APIChatMessage where
  content : String
  is_user : Bool
deriving DecidableEq, Repr

/-- A backend call issued by the widget, with its payload. -/
inductive Call where
  | assistantSend (message : String) (history : List APIChatMessage)
      (language : Lang) (activeEscalationId : Option String)
  | escalationSend (escalationId : String) (message : String)
  | csatSubmit (escalationId : String) (rating : Nat) (feedback : Option String)
deriving DecidableEq, Repr

/-- The widget's React state (`useState` fields that carry session logic). -/
structure WidgetState where
  messages : List ChatMessage
  input : String
  language : Lang
  pendingEscalations : List String
  showCSAT : Option String
  csatRating : Nat
  csatFeedback : String
  csatSubmitted : List String
  shownMessageCounts : String → Nat
  sessionId : String

/-- Client-local durable storage: one typed slot per `STORAGE_KEYS` entry,
plus a flag recording whether the storage is usable at all.  When
`available = false`, every raw read raises. -/
structure Storage where
  available : Bool
  sessionIdSlot : Option String
  messagesSlot : Option (List ChatMessage)
  escalationsSlot : Option (List String)
  csatSubmittedSlot : Option (List String)
  languageSlot : Option String

/-- A raw `localStorage.getItem` read: raises when storage is unavailable. -/
def Storage.getItem (st : Storage) (slot : Option α) : Except Unit (Option α) :=
  if st.available then .ok slot else .error ()

/-- Source `getSessionId`: return the persisted identifier, generating and persisting
a fresh `session-<now>-<rand>` one when absent.  The `localStorage` reads and
writes are not guarded in the source, so storage failure propagates. -/
def getSessionId (st : Storage) (now : Int) (rand : String) :
    Except Unit (String × Storage) :=
  match st.getItem st.sessionIdSlot with
  | .error e => .error e
  | .ok (some sessionId) => .ok (sessionId, st)
  | .ok none =>
      let sessionId := s!"session-{now}-{rand}"
      .ok (sessionId, { st with sessionIdSlot := some sessionId })

/-- Source `loadMessages`: read the persisted timeline; any storage or parse error is
caught and yields the empty list. -/
def loadMessages (st : Storage) : List ChatMessage :=
  match st.getItem st.messagesSlot with
  | .ok (some saved) => saved
  | .ok none => []
  | .error _ => []

/-- Source `loadEscalations`: read the tracked-escalation list, degrading to `[]` on
any error. -/
def loadEscalations (st : Storage) : List String :=
  match st.getItem st.escalationsSlot with
  | .ok (some saved) => saved
  | .ok none => []
  | .error _ => []

/-- Source `loadCSATSubmitted`: read the CSAT-submitted list, degrading to `[]` on
any error. -/
def loadCSATSubmitted (st : Storage) : List String :=
  match st.getItem st.csatSubmittedSlot with
  | .ok (some saved) => saved
  | .ok none => []
  | .error _ => []

/-- Source `loadLanguage`: unguarded read of the language preference; `"kz"` maps to
`kz`, anything else to `ru`. -/
def loadLanguage (st : Storage) : Except Unit Lang :=
  match st.getItem st.languageSlot with
  | .error e => .error e
  | .ok saved => .ok (if saved = some "kz" then .kz else .ru)

/-- The `useEffect` persistence hooks: after every state change the timeline,
tracked escalations, CSAT-submitted list and language are written back to
storage.  Writes to unavailable storage are modelled as no-ops (no claim in
this development exercises that path). -/
def persistW (w : WidgetState) (st : Storage) : Storage :=
  if st.available then
    { st with
      messagesSlot := some w.messages
      escalationsSlot := some w.pendingEscalations
      csatSubmittedSlot := some w.csatSubmitted
      languageSlot := some w.language.code }
  else st

/-- Widget mount: run every `useState` initializer in declaration order
(`loadMessages`, `loadLanguage`, `loadEscalations`, `loadCSATSubmitted`,
`getSessionId`) and then the initial persistence effects. -/
def initWidget (st : Storage) (now : Int) (rand : String) :
    Except Unit (WidgetState × Storage) :=
  match loadLanguage st with
  | .error e => .error e
  | .ok language =>
      match getSessionId st now rand with
      | .error e => .error e
      | .ok (sessionId, st₁) =>
          let w : WidgetState :=
            { messages := loadMessages st
              input := ""
              language := language
              pendingEscalations := loadEscalations st
              showCSAT := none
              csatRating := 0
              csatFeedback := ""
              csatSubmitted := loadCSATSubmitted st
              shownMessageCounts := fun _ => 0
              sessionId := sessionId }
          .ok (w, persistW w st₁)

/-- Source `getConversationHistory`: map the timeline to the API history format.
It reads the render-time `messages`, so the just-appended outgoing message is
not included when `handleSend` builds the payload. -/
def getConversationHistory (messages : List ChatMessage) : List APIChatMessage :=
  messages.map fun m => { content := m.content, is_user := !m.isBot }

/-- Source `addBotMessage`: the assistant-style entry appended by the widget, stamped
with the current time. -/
def addBotMessage (now : Int) (content : String) (sources : Option (List KBSource))
    (canAutoResolve : Option Bool) (toolCall : Option ToolCallResult) : ChatMessage :=
  { id := toString now
    content := content
    isBot := true
    isOperator := false
    timestamp := now
    sources := sources
    canAutoResolve := canAutoResolve
    toolCall := toolCall }

/-- The localized operator-acknowledgment text appended after a successful
human-directed send. -/
def ackText : Lang → String
  | .kz => "📨 Сіздің хабарламаңыз операторға жіберілді. Жауабын күтіңіз."
  | .ru => "📨 Ваше сообщение отправлено оператору. Ожидайте ответа."

/-- The localized fallback text appended when a send fails. -/
def fallbackText : Lang → String
  | .kz => "Кешіріңіз, қате орын алды. Тикет жасауыңызды ұсынамын."
  | .ru => "Извините, произошла ошибка. Рекомендую создать тикет для получения помощи."

/-- JavaScript `String.prototype.trim`: strip leading and trailing whitespace.
Implemented over the character list so that it is fully executable. -/
def jsTrim (s : String) : String :=
  String.mk
    (((s.toList.dropWhile Char.isWhitespace).reverse.dropWhile Char.isWhitespace).reverse)

/-- The visitor-side entry appended by `handleSend` before the send. -/
def visitorMessage (now : Int) (content : String) : ChatMessage :=
  { id := toString now
    content := content
    isBot := false
    isOperator := false
    timestamp := now
    sources := none
    canAutoResolve := none
    toolCall := none }

/-- Source `getActiveEscalationId`: the first tracked escalation, if any. -/
def getActiveEscalationId (s : WidgetState) : Option String :=
  s.pendingEscalations.head?

/-- Begin tracking identifiers announced by an assistant tool call:
`escalate_to_operator` contributes its `escalation_id`, `create_ticket` its
`ticket_number`. -/
def trackToolCall (pending : List String) (tc : Option ToolCallResult) : List String :=
  let p₁ :=
    match tc with
    | some t =>
        if t.name = "escalate_to_operator" then
          match t.result with
          | some r => match r.escalation_id with
            | some eid => pending ++ [eid]
            | none => pending
          | none => pending
        else pending
    | none => pending
  match tc with
  | some t =>
      if t.name = "create_ticket" then
        match t.result with
        | some r => match r.ticket_number with
          | some tn => p₁ ++ [tn]
          | none => p₁
        | none => p₁
      else p₁
  | none => p₁

/-- Source `handleSend`: the outgoing-message handler.  `now` stamps the visitor
message, `nowReply` the delayed bot-side append (`setTimeout`).  When an
escalation is active the message goes to `sendToEscalation` (`escOk` tells
whether that call succeeded); otherwise it goes to `chatApi.send`
(`aiResp = none` models a network/backend failure).  Returns the new state
and the backend calls issued. -/
def handleSend (s : WidgetState) (now nowReply : Int) (escOk : Bool)
    (aiResp : Option ChatResponseData) : WidgetState × List Call :=
  if jsTrim s.input = "" then (s, [])
  else
    let userMessage := jsTrim s.input
    let history := getConversationHistory s.messages
    let s := { s with input := "" }
    let s := { s with messages := s.messages ++ [visitorMessage now userMessage] }
    match getActiveEscalationId s with
    | some activeEscalation =>
        let call := Call.escalationSend activeEscalation userMessage
        if escOk then
          ({ s with messages :=
              s.messages ++ [addBotMessage nowReply (ackText s.language) none none none] },
           [call])
        else
          ({ s with messages :=
              s.messages ++ [addBotMessage nowReply (fallbackText s.language) none none none] },
           [call])
    | none =>
        let call := Call.assistantSend userMessage history s.language none
        match aiResp with
        | none =>
            ({ s with messages :=
                s.messages ++ [addBotMessage nowReply (fallbackText s.language) none none none] },
             [call])
        | some r =>
            let s := { s with pendingEscalations := trackToolCall s.pendingEscalations r.tool_call }
            ({ s with messages :=
                s.messages ++ [addBotMessage nowReply r.response (some r.sources)
                  (some r.can_auto_resolve) r.tool_call] },
             [call])

/-- One iteration of the `checkForResponses` loop for one tracked escalation.
`s₀` is the state captured by the effect closure: `shownMessageCounts` and
`csatSubmitted` are read from it, while `messages`, `pendingEscalations`,
`shownMessageCounts` writes and `showCSAT` thread through `st` (the handlers
use functional `setState` updates).  A failed fetch (`snap id = none`) is
caught and skipped. -/
def processEscalation (s₀ : WidgetState) (snap : String → Option Escalation)
    (now : Int) (st : WidgetState) (escalationId : String) : WidgetState :=
  match snap escalationId with
  | none => st
  | some escalation =>
      let operatorMessages := escalation.operator_messages.getD []
      let shownCount := s₀.shownMessageCounts escalationId
      let st :=
        if operatorMessages.length > shownCount then
          { st with
            messages := st.messages ++
              ((operatorMessages.drop shownCount).enum.map fun p =>
                { id := s!"operator-{escalationId}-{shownCount + p.1}-{now}"
                  content := p.2.content
                  isBot := true
                  isOperator := true
                  timestamp := p.2.timestamp
                  sources := none
                  canAutoResolve := none
                  toolCall := none })
            shownMessageCounts := fun k =>
              if k = escalationId then operatorMessages.length
              else st.shownMessageCounts k }
        else st
      if escalation.status = "resolved" then
        let st := { st with
          pendingEscalations := st.pendingEscalations.filter (· ≠ escalationId) }
        if escalationId ∈ s₀.csatSubmitted then st
        else { st with showCSAT := some escalationId }
      else st

/-- One `checkForResponses` cycle: iterate over the tracked escalations
captured at the start of the cycle. -/
def pollCycle (s : WidgetState) (snap : String → Option Escalation) (now : Int) :
    WidgetState :=
  s.pendingEscalations.foldl (processEscalation s snap now) s

/-- The thank-you entry appended after a successful CSAT submission. -/
def csatThanksMessage (escalationId : String) (rating : Nat) (now : Int) : ChatMessage :=
  { id := s!"csat-thanks-{escalationId}"
    content := s!"⭐ Спасибо за вашу оценку ({rating}/5)! Мы ценим ваш отзыв и постоянно улучшаем качество обслуживания."
    isBot := true
    isOperator := false
    timestamp := now
    sources := none
    canAutoResolve := none
    toolCall := none }

/-- Source `handleSubmitCSAT`: no-op unless a survey is open and a rating chosen; the
backend call is issued, and only on success (`ok = true`) is the thank-you
message appended, the identifier added to the submitted set, and the form
cleared.  On failure the `catch` only logs, so the state is unchanged. -/
def handleSubmitCSAT (s : WidgetState) (ok : Bool) (now : Int) :
    WidgetState × List Call :=
  match s.showCSAT with
  | none => (s, [])
  | some showCSAT =>
      if s.csatRating = 0 then (s, [])
      else
        let call := Call.csatSubmit showCSAT s.csatRating
          (if s.csatFeedback = "" then none else some s.csatFeedback)
        if ok then
          ({ s with
              messages := s.messages ++ [csatThanksMessage showCSAT s.csatRating now]
              csatSubmitted := s.csatSubmitted ++ [showCSAT]
              showCSAT := none
              csatRating := 0
              csatFeedback := "" },
           [call])
        else (s, [call])

/-- The "Пропустить" (skip) button of the CSAT form. -/
def handleSkipCSAT (s : WidgetState) : WidgetState :=
  { s with showCSAT := none, csatRating := 0, csatFeedback := "" }

/-- The "new chat" button: clear the timeline, tracked escalations and CSAT
form state, and persist a freshly generated session identifier.  The
`csatSubmitted` list, the shown-message counts and the in-memory `sessionId`
are left untouched by the handler. -/
def startNewChat (s : WidgetState) (st : Storage) (now : Int) (rand : String) :
    WidgetState × Storage :=
  let s := { s with
    messages := []
    pendingEscalations := []
    showCSAT := none
    csatRating := 0
    csatFeedback := "" }
  let newSessionId := s!"session-{now}-{rand}"
  let st := if st.available then { st with sessionIdSlot := some newSessionId } else st
  (s, st)

/-- The widget together with the durable storage it persists into. -/
structure AppState where
  widget : WidgetState
  store : Storage

/-- The external events driving the widget.  Each network-dependent event
carries the backend's answer as data (`escOk`, `aiResp`, `snap`, `ok`) and the
wall-clock instants at which the widget stamps messages. -/
inductive Event where
  | send (now nowReply : Int) (escOk : Bool) (aiResp : Option ChatResponseData)
  | poll (snap : String → Option Escalation) (now : Int)
  | csatSubmit (ok : Bool) (now : Int)
  | csatSkip
  | setRating (stars : Nat)
  | setFeedback (text : String)
  | setInput (text : String)
  | setLanguage (l : Lang)
  | newChat (now : Int) (rand : String)
  | reload (now : Int) (rand : String)

/-- One event step of the application: run the handler, then the persistence
effects.  A reload re-mounts the widget from storage; a mount failure
(unavailable storage) is modelled as leaving the application where it is. -/
def step (a : AppState) (e : Event) : AppState × List Call :=
  match e with
  | .send now nowReply escOk aiResp =>
      (⟨(handleSend a.widget now nowReply escOk aiResp).1,
        persistW (handleSend a.widget now nowReply escOk aiResp).1 a.store⟩,
       (handleSend a.widget now nowReply escOk aiResp).2)
  | .poll snap now =>
      (⟨pollCycle a.widget snap now,
        persistW (pollCycle a.widget snap now) a.store⟩, [])
  | .csatSubmit ok now =>
      (⟨(handleSubmitCSAT a.widget ok now).1,
        persistW (handleSubmitCSAT a.widget ok now).1 a.store⟩,
       (handleSubmitCSAT a.widget ok now).2)
  | .csatSkip =>
      (⟨handleSkipCSAT a.widget, persistW (handleSkipCSAT a.widget) a.store⟩, [])
  | .setRating stars =>
      (⟨{ a.widget with csatRating := stars },
        persistW { a.widget with csatRating := stars } a.store⟩, [])
  | .setFeedback text =>
      (⟨{ a.widget with csatFeedback := text },
        persistW { a.widget with csatFeedback := text } a.store⟩, [])
  | .setInput text =>
      (⟨{ a.widget with input := text },
        persistW { a.widget with input := text } a.store⟩, [])
  | .setLanguage l =>
      (⟨{ a.widget with language := l },
        persistW { a.widget with language := l } a.store⟩, [])
  | .newChat now rand =>
      (⟨(startNewChat a.widget a.store now rand).1,
        persistW (startNewChat a.widget a.store now rand).1
          (startNewChat a.widget a.store now rand).2⟩, [])
  | .reload now rand =>
      match initWidget a.store now rand with
      | .ok (w, st) => (⟨w, st⟩, [])
      | .error _ => (a, [])

/-- Run a trace of events, collecting all backend calls in order. -/
def runTrace (a : AppState) : List Event → AppState × List Call
  | [] => (a, [])
  | e :: tr =>
      let (a₁, calls) := step a e
      let (a₂, rest) := runTrace a₁ tr
      (a₂, calls ++ rest)

/-- Whether an event, taken in state `a`, is an invocation of the `submitCSAT`
backend operation for `escalationId` (the call is issued exactly when the
form is open with a nonzero rating). -/
def isCsatCall (a : AppState) (e : Event) (escalationId : String) : Bool :=
  match e with
  | .csatSubmit _ _ =>
      a.widget.showCSAT = some escalationId && a.widget.csatRating ≠ 0
  | _ => false

/-- Whether an event, taken in state `a`, is a *successful* `submitCSAT`
invocation for `escalationId`. -/
def isCsatSuccess (a : AppState) (e : Event) (escalationId : String) : Bool :=
  match e with
  | .csatSubmit ok _ =>
      ok && a.widget.showCSAT = some escalationId && a.widget.csatRating ≠ 0
  | _ => false

/-- Number of `submitCSAT` invocations for `escalationId` along a trace. -/
def csatCallCount (a : AppState) (tr : List Event) (escalationId : String) : Nat :=
  match tr with
  | [] => 0
  | e :: tr =>
      (if isCsatCall a e escalationId then 1 else 0) +
        csatCallCount (step a e).1 tr escalationId

/-- Number of successful `submitCSAT` invocations for `escalationId` along a
trace. -/
def csatSuccessCount (a : AppState) (tr : List Event) (escalationId : String) : Nat :=
  match tr with
  | [] => 0
  | e :: tr =>
      (if isCsatSuccess a e escalationId then 1 else 0) +
        csatSuccessCount (step a e).1 tr escalationId

/-- Number of steps along a trace at which the survey prompt becomes shown for
`escalationId` (a transition of `showCSAT` to `some escalationId`). -/
def csatPromptCount (a : AppState) (tr : List Event) (escalationId : String) : Nat :=
  match tr with
  | [] => 0
  | e :: tr =>
      let a₁ := (step a e).1
      (if a₁.widget.showCSAT = some escalationId ∧
          a.widget.showCSAT ≠ some escalationId then 1 else 0) +
        csatPromptCount a₁ tr escalationId

/-! ### Operator-facing transcript merge (`OperatorPage`)

The operator panel reconstructs one chat from three sources: the
pre-escalation conversation-history snapshot (no timestamps; each entry gets
the synthetic timestamp `created_at + idx * 1000`), the client messages and
the operator messages (both with real timestamps).  The combined list is
sorted ascending by timestamp with a stable sort. -/

/-- Origin tag of a transcript entry in the operator view. -/
inductive EntryType where
  | history
  | client
  | operator
deriving DecidableEq, Repr

/-- One entry of the operator-facing unified transcript. -/
structure TranscriptEntry where
  etype : EntryType
  content : String
  timestamp : Int
  is_user : Option Bool
deriving DecidableEq, Repr

/-- Stamp the conversation-history snapshot with synthetic timestamps
`created + idx * 1000`, starting at index `idx`. -/
def stampHistory (created : Int) (idx : Nat) : List HistMsg → List TranscriptEntry
  | [] => []
  | m :: rest =>
      { etype := .history
        content := m.content
        timestamp := created + idx * 1000
        is_user := some m.is_user } :: stampHistory created (idx + 1) rest

/-- The real-timestamped entries: client messages then operator messages, in
backend order. -/
def realEntries (t : Escalation) : List TranscriptEntry :=
  ((t.client_messages.getD []).map fun m =>
    { etype := .client, content := m.content, timestamp := m.timestamp, is_user := none }) ++
  ((t.operator_messages.getD []).map fun m =>
    { etype := .operator, content := m.content, timestamp := m.timestamp, is_user := none })

/-- The `allMessages` list as the source builds it: history snapshot first, then client
messages, then operator messages. -/
def buildAllMessages (t : Escalation) : List TranscriptEntry :=
  stampHistory t.created_at 0 (t.conversation_history.getD []) ++ realEntries t

/-- Ascending-timestamp order used by the sort comparator. -/
def entryLE (a b : TranscriptEntry) : Prop := a.timestamp ≤ b.timestamp

instance : DecidableRel entryLE := fun a b => inferInstanceAs (Decidable (a.timestamp ≤ b.timestamp))

instance : IsTotal TranscriptEntry entryLE := ⟨fun a b => Int.le_total a.timestamp b.timestamp⟩

instance : IsTrans TranscriptEntry entryLE := ⟨fun _ _ _ h₁ h₂ => le_trans h₁ h₂⟩

/-- The merged transcript: `allMessages.sort((a, b) => a.timestamp - b.timestamp)`,
a stable ascending sort. -/
def mergedTranscript (t : Escalation) : List TranscriptEntry :=
  (buildAllMessages t).insertionSort entryLE

/-! ### Timeline ordering predicate and CSAT invariant -/

/-- Timeline monotonicity: timestamps are non-decreasing in list order. -/
def timelineMonotone (l : List ChatMessage) : Prop :=
  l.Chain' fun a b => a.timestamp ≤ b.timestamp

/-- Executable check for `timelineMonotone`. -/
def timelineMonotoneB : List ChatMessage → Bool
  | [] => true
  | [_] => true
  | a :: b :: t => decide (a.timestamp ≤ b.timestamp) && timelineMonotoneB (b :: t)

/-- Session invariant for the survey gate: no identifier already in the
CSAT-submitted set has the survey form open, and (while storage is available)
the persisted CSAT-submitted slot mirrors the in-memory list.  It holds for a
freshly mounted widget and is preserved by every event. -/
def CsatInv (a : AppState) : Prop :=
  (∀ i ∈ a.widget.csatSubmitted, a.widget.showCSAT ≠ some i) ∧
  (a.store.available = true → a.store.csatSubmittedSlot = some a.widget.csatSubmitted)

instance (a : AppState) : Decidable (CsatInv a) :=
  inferInstanceAs (Decidable
    ((∀ i ∈ a.widget.csatSubmitted, a.widget.showCSAT ≠ some i) ∧
      (a.store.available = true →
        a.store.csatSubmittedSlot = some a.widget.csatSubmitted)))

/-! ### Concrete fixtures used by witnesses and counterexamples -/

/-- A fresh widget state, as produced by a first mount on empty storage. -/
def baseWidget : WidgetState :=
  { messages := []
    input := ""
    language := .ru
    pendingEscalations := []
    showCSAT := none
    csatRating := 0
    csatFeedback := ""
    csatSubmitted := []
    shownMessageCounts := fun _ => 0
    sessionId := "session-1-a" }

/-- An available storage in sync with `baseWidget`. -/
def baseStorage : Storage :=
  { available := true
    sessionIdSlot := some "session-1-a"
    messagesSlot := some []
    escalationsSlot := some []
    csatSubmittedSlot := some []
    languageSlot := some "ru" }

/-- A storage whose reads all raise (storage unavailable). -/
def unavailableStorage : Storage :=
  { available := false
    sessionIdSlot := none
    messagesSlot := none
    escalationsSlot := none
    csatSubmittedSlot := none
    languageSlot := none }

/-- A state with one message and one recorded CSAT rating, used to exercise
the "new chat" reset. -/
def ratedWidget : WidgetState :=
  { baseWidget with
      csatSubmitted := ["ESC-1"]
      messages := [visitorMessage 1 "привет"] }

/-- A state with a typed-in visitor question and no tracked escalation. -/
def askWidget : WidgetState :=
  { baseWidget with input := "мой пароль не работает" }

/-- A state with a typed-in visitor question and one tracked escalation. -/
def escWidget : WidgetState :=
  { baseWidget with
      input := "мой пароль не работает"
      pendingEscalations := ["ESC-1"] }

/-- A backend snapshot in which `ESC-1` is resolved with no operator
messages. -/
def snapResolved : String → Option Escalation := fun id =>
  if id = "ESC-1" then
    some { status := "resolved"
           created_at := 0
           conversation_history := none
           client_messages := none
           operator_messages := some [] }
  else none

/-- An assistant response whose tool call escalates to `ESC-1`. -/
def respEscalate : ChatResponseData :=
  { response := "Передаю ваш вопрос оператору."
    sources := []
    can_auto_resolve := false
    tool_call := some
      { name := "escalate_to_operator"
        result := some
          { success := true
            escalation_id := some "ESC-1"
            ticket_number := none } } }

/-- A backend snapshot for escalation `ESC-1`: two operator messages, not yet
resolved. -/
def snapTwoOps : String → Option Escalation := fun id =>
  if id = "ESC-1" then
    some { status := "pending"
           created_at := 0
           conversation_history := none
           client_messages := none
           operator_messages := some [⟨"Здравствуйте!", 100⟩, ⟨"Уточните, пожалуйста.", 200⟩] }
  else none

/-- A fresh widget tracking `ESC-1` (no operator message seen yet). -/
def c1Widget : WidgetState :=
  { baseWidget with pendingEscalations := ["ESC-1"] }

/-- The widget after the first poll cycle that observed `snapTwoOps`. -/
def c1AfterFirst : WidgetState :=
  pollCycle c1Widget snapTwoOps 1000

/-- The storage persisted after that first cycle (timeline and tracked set
saved; the shown-message counts have no storage key). -/
def c1Store : Storage :=
  persistW c1AfterFirst baseStorage

/-- Application state tracking `ESC-1`, storage in sync. -/
def c3Start : AppState :=
  ⟨c1Widget, persistW c1Widget baseStorage⟩

/-- A session in which `ESC-1` resolves, the survey is dismissed, the same
escalation is re-tracked and resolves again, and the rating is submitted
twice (one failed attempt, one successful). -/
def c3Trace : List Event :=
  [ .poll snapResolved 10
  , .csatSkip
  , .setInput "вопрос оператору"
  , .send 20 21 true (some respEscalate)
  , .poll snapResolved 30
  , .setRating 5
  , .csatSubmit false 40
  , .csatSubmit true 50 ]

/-- A timeline holding one visitor message stamped at time 10, with `ESC-1`
tracked. -/
def lateWidget : WidgetState :=
  { baseWidget with
      messages := [visitorMessage 10 "привет"]
      pendingEscalations := ["ESC-1"] }

/-- A snapshot in which the operator replied at time 5 — before the visitor
message at time 10 was stamped. -/
def snapEarlyOp : String → Option Escalation := fun id =>
  if id = "ESC-1" then
    some { status := "pending"
           created_at := 0
           conversation_history := none
           client_messages := none
           operator_messages := some [⟨"Здравствуйте", 5⟩] }
  else none

/-- An escalation whose client wrote during the synthetic-timestamp window of
the two-entry history snapshot (timestamps 500 and 1000 against synthetic 0
and 1000). -/
def c5Ticket : Escalation :=
  { status := "in_progress"
    created_at := 0
    conversation_history := some [⟨"вопрос", true⟩, ⟨"ответ ассистента", false⟩]
    client_messages := some [⟨"уточнение", 500⟩, ⟨"ещё уточнение", 1000⟩]
    operator_messages := some [] }

/-- An escalation whose real messages all arrive after the synthetic window of
its two-entry history snapshot. -/
def c5LateTicket : Escalation :=
  { status := "in_progress"
    created_at := 0
    conversation_history := some [⟨"вопрос", true⟩, ⟨"ответ ассистента", false⟩]
    client_messages := some [⟨"уточнение", 5000⟩]
    operator_messages := some [⟨"ответ оператора", 6000⟩] }

/-! ### Helper lemmas -/

theorem timelineMonotone_iff :
    ∀ l : List ChatMessage, timelineMonotone l ↔ timelineMonotoneB l = true
  | [] => by simp [timelineMonotone, timelineMonotoneB]
  | [a] => by simp [timelineMonotone, timelineMonotoneB]
  | a :: b :: t => by
      rw [timelineMonotone, List.chain'_cons, timelineMonotoneB]
      rw [show List.Chain' (fun a b : ChatMessage => a.timestamp ≤ b.timestamp) (b :: t) ↔
            timelineMonotoneB (b :: t) = true from timelineMonotone_iff (b :: t)]
      simp

instance (l : List ChatMessage) : Decidable (timelineMonotone l) :=
  decidable_of_iff _ (timelineMonotone_iff l).symm


theorem monotone_append_one (l : List ChatMessage) (a : ChatMessage)
    (h : timelineMonotone l) (ha : ∀ m ∈ l, m.timestamp ≤ a.timestamp) :
    timelineMonotone (l ++ [a]) := by
  unfold timelineMonotone at *
  rw [List.chain'_append]
  refine ⟨h, List.chain'_singleton a, ?_⟩
  intro x hx y hy
  simp only [List.head?_cons, Option.mem_def, Option.some.injEq] at hy
  subst hy
  obtain ⟨hne, rfl⟩ := List.mem_getLast?_eq_getLast hx
  exact ha _ (List.getLast_mem hne)

theorem monotone_append_two (l : List ChatMessage) (a b : ChatMessage)
    (h : timelineMonotone l) (ha : ∀ m ∈ l, m.timestamp ≤ a.timestamp)
    (hab : a.timestamp ≤ b.timestamp) :
    timelineMonotone (l ++ [a, b]) := by
  have : l ++ [a, b] = (l ++ [a]) ++ [b] := by simp
  rw [this]
  refine monotone_append_one _ _ (monotone_append_one l a h ha) ?_
  intro m hm
  rcases List.mem_append.mp hm with hm | hm
  · exact le_trans (ha m hm) hab
  · simp only [List.mem_singleton] at hm
    subst hm
    exact hab

theorem processEscalation_pending_subset (s₀ : WidgetState)
    (snap : String → Option Escalation) (now : Int) (st : WidgetState) (x : String) :
    (processEscalation s₀ snap now st x).pendingEscalations ⊆ st.pendingEscalations := by
  unfold processEscalation
  cases hsnap : snap x with
  | none => exact fun a ha => ha
  | some e =>
      dsimp only
      split_ifs <;> first
        | exact fun a ha => ha
        | exact List.filter_subset' _

theorem processEscalation_notmem_pending (s₀ : WidgetState)
    (snap : String → Option Escalation) (now : Int) (st : WidgetState) (x id : String)
    (h : id ∉ st.pendingEscalations) :
    id ∉ (processEscalation s₀ snap now st x).pendingEscalations :=
  fun hmem => h (processEscalation_pending_subset s₀ snap now st x hmem)

theorem processEscalation_counts_other (s₀ : WidgetState)
    (snap : String → Option Escalation) (now : Int) (st : WidgetState) (x id : String)
    (hne : x ≠ id) :
    (processEscalation s₀ snap now st x).shownMessageCounts id =
      st.shownMessageCounts id := by
  unfold processEscalation
  cases hsnap : snap x with
  | none => rfl
  | some e =>
      dsimp only
      split_ifs <;> simp [Ne.symm hne]

theorem processEscalation_counts_self (s₀ : WidgetState)
    (snap : String → Option Escalation) (now : Int) (st : WidgetState) (id : String)
    (e : Escalation) (hsnap : snap id = some e) :
    (processEscalation s₀ snap now st id).shownMessageCounts id =
      if (e.operator_messages.getD []).length > s₀.shownMessageCounts id
      then (e.operator_messages.getD []).length
      else st.shownMessageCounts id := by
  unfold processEscalation
  rw [hsnap]
  dsimp only
  split_ifs <;> simp_all

theorem processEscalation_removes_resolved (s₀ : WidgetState)
    (snap : String → Option Escalation) (now : Int) (st : WidgetState) (id : String)
    (e : Escalation) (hsnap : snap id = some e) (hres : e.status = "resolved") :
    id ∉ (processEscalation s₀ snap now st id).pendingEscalations := by
  unfold processEscalation
  rw [hsnap]
  dsimp only
  rw [if_pos hres]
  split_ifs <;> simp [List.mem_filter]

theorem foldl_pending_subset (s₀ : WidgetState) (snap : String → Option Escalation)
    (now : Int) :
    ∀ (l : List String) (st : WidgetState),
      (l.foldl (processEscalation s₀ snap now) st).pendingEscalations ⊆
        st.pendingEscalations
  | [], _ => fun _ ha => ha
  | x :: l, st => fun _ ha =>
      processEscalation_pending_subset s₀ snap now st x
        (foldl_pending_subset s₀ snap now l (processEscalation s₀ snap now st x) ha)

theorem foldl_notmem_pending (s₀ : WidgetState) (snap : String → Option Escalation)
    (now : Int) (escId : String) :
    ∀ (l : List String) (st : WidgetState), escId ∉ st.pendingEscalations →
      escId ∉ (l.foldl (processEscalation s₀ snap now) st).pendingEscalations
  | [], _, h => h
  | x :: l, st, h =>
      foldl_notmem_pending s₀ snap now escId l (processEscalation s₀ snap now st x)
        (processEscalation_notmem_pending s₀ snap now st x escId h)

theorem foldl_removes_resolved (s₀ : WidgetState) (snap : String → Option Escalation)
    (now : Int) (id : String) (e : Escalation) (hsnap : snap id = some e)
    (hres : e.status = "resolved") :
    ∀ (l : List String) (st : WidgetState), id ∈ l →
      id ∉ (l.foldl (processEscalation s₀ snap now) st).pendingEscalations := by
  intro l
  induction l with
  | nil => intro st h; cases h
  | cons x l ih =>
      intro st hmem
      by_cases hx : x = id
      · subst hx
        exact foldl_notmem_pending s₀ snap now x l _
          (processEscalation_removes_resolved s₀ snap now st x e hsnap hres)
      · exact ih _ (List.mem_of_ne_of_mem (fun h => hx h.symm) hmem)

theorem processEscalation_counts_ge_step (s₀ : WidgetState)
    (snap : String → Option Escalation) (now : Int) (st : WidgetState) (x id : String)
    (e : Escalation) (hsnap : snap id = some e)
    (h : (e.operator_messages.getD []).length ≤ st.shownMessageCounts id) :
    (e.operator_messages.getD []).length ≤
      (processEscalation s₀ snap now st x).shownMessageCounts id := by
  by_cases hx : x = id
  · subst hx
    rw [processEscalation_counts_self s₀ snap now st x e hsnap]
    split_ifs with hc
    · exact le_refl _
    · exact h
  · rw [processEscalation_counts_other s₀ snap now st x id hx]
    exact h

theorem foldl_counts_ge_post (s₀ : WidgetState) (snap : String → Option Escalation)
    (now : Int) (id : String) (e : Escalation) (hsnap : snap id = some e) :
    ∀ (l : List String) (st : WidgetState),
      (e.operator_messages.getD []).length ≤ st.shownMessageCounts id →
      (e.operator_messages.getD []).length ≤
        (l.foldl (processEscalation s₀ snap now) st).shownMessageCounts id
  | [], _, h => h
  | x :: l, st, h =>
      foldl_counts_ge_post s₀ snap now id e hsnap l _
        (processEscalation_counts_ge_step s₀ snap now st x id e hsnap h)

theorem foldl_counts_ge (s₀ : WidgetState) (snap : String → Option Escalation)
    (now : Int) (id : String) (e : Escalation) (hsnap : snap id = some e) :
    ∀ (l : List String) (st : WidgetState),
      ((e.operator_messages.getD []).length ≤ st.shownMessageCounts id ∨
        st.shownMessageCounts id = s₀.shownMessageCounts id) →
      id ∈ l →
      (e.operator_messages.getD []).length ≤
        (l.foldl (processEscalation s₀ snap now) st).shownMessageCounts id := by
  intro l
  induction l with
  | nil => intro st _ h; cases h
  | cons x l ih =>
      intro st hdisj hmem
      by_cases hx : x = id
      · subst hx
        apply foldl_counts_ge_post s₀ snap now x e hsnap l
        rw [processEscalation_counts_self s₀ snap now st x e hsnap]
        split_ifs with hc
        · exact le_refl _
        · rcases hdisj with h | h
          · exact h
          · rw [h]; exact Nat.le_of_not_lt hc
      · apply ih _ ?_ (List.mem_of_ne_of_mem (fun h => hx h.symm) hmem)
        rw [processEscalation_counts_other s₀ snap now st x id hx]
        exact hdisj

theorem foldl_noop {g : WidgetState → String → WidgetState} :
    ∀ (l : List String) (st : WidgetState), (∀ x ∈ l, ∀ st', g st' x = st') →
      l.foldl g st = st
  | [], _, _ => rfl
  | x :: l, st, h => by
      rw [List.foldl_cons, h x (List.mem_cons_self x l)]
      exact foldl_noop l st fun y hy => h y (List.mem_cons_of_mem x hy)

/-- Core of the poll-idempotence claim: a second `checkForResponses` cycle
against the same backend snapshot leaves the whole widget state unchanged. -/
theorem pollCycle_idempotent (s : WidgetState) (snap : String → Option Escalation)
    (t₁ t₂ : Int) :
    pollCycle (pollCycle s snap t₁) snap t₂ = pollCycle s snap t₁ := by
  apply foldl_noop
  intro x hx st
  have hxs : x ∈ s.pendingEscalations :=
    foldl_pending_subset s snap t₁ s.pendingEscalations s hx
  cases hsnap : snap x with
  | none => unfold processEscalation; rw [hsnap]
  | some e =>
      have hcount : (e.operator_messages.getD []).length ≤
          (pollCycle s snap t₁).shownMessageCounts x :=
        foldl_counts_ge s snap t₁ x e hsnap s.pendingEscalations s (Or.inr rfl) hxs
      have hnores : ¬ e.status = "resolved" := fun hres =>
        foldl_removes_resolved s snap t₁ x e hsnap hres s.pendingEscalations s hxs hx
      unfold processEscalation
      rw [hsnap]
      dsimp only
      rw [if_neg (Nat.not_lt.mpr hcount), if_neg hnores]

theorem handleSend_csat (s : WidgetState) (now nr : Int) (eo : Bool)
    (ai : Option ChatResponseData) :
    (handleSend s now nr eo ai).1.csatSubmitted = s.csatSubmitted := by
  by_cases h : jsTrim s.input = ""
  · simp [handleSend, h]
  · rcases hpe : s.pendingEscalations with _ | ⟨e, rest⟩
    · cases ai <;> simp [handleSend, h, getActiveEscalationId, hpe]
    · cases eo <;> simp [handleSend, h, getActiveEscalationId, hpe]

theorem handleSend_showCSAT (s : WidgetState) (now nr : Int) (eo : Bool)
    (ai : Option ChatResponseData) :
    (handleSend s now nr eo ai).1.showCSAT = s.showCSAT := by
  by_cases h : jsTrim s.input = ""
  · simp [handleSend, h]
  · rcases hpe : s.pendingEscalations with _ | ⟨e, rest⟩
    · cases ai <;> simp [handleSend, h, getActiveEscalationId, hpe]
    · cases eo <;> simp [handleSend, h, getActiveEscalationId, hpe]

theorem processEscalation_csat (s₀ : WidgetState) (snap : String → Option Escalation)
    (now : Int) (st : WidgetState) (x : String) :
    (processEscalation s₀ snap now st x).csatSubmitted = st.csatSubmitted := by
  unfold processEscalation
  cases hsnap : snap x with
  | none => rfl
  | some e =>
      dsimp only
      split_ifs <;> rfl

theorem pollCycle_csat_aux (s₀ : WidgetState) (snap : String → Option Escalation)
    (now : Int) :
    ∀ (l : List String) (st : WidgetState),
      (l.foldl (processEscalation s₀ snap now) st).csatSubmitted = st.csatSubmitted
  | [], _ => rfl
  | x :: l, st => by
      rw [List.foldl_cons, pollCycle_csat_aux s₀ snap now l _,
        processEscalation_csat s₀ snap now st x]

theorem pollCycle_csat (s : WidgetState) (snap : String → Option Escalation) (now : Int) :
    (pollCycle s snap now).csatSubmitted = s.csatSubmitted :=
  pollCycle_csat_aux s snap now s.pendingEscalations s

theorem processEscalation_showCSAT (s₀ : WidgetState) (snap : String → Option Escalation)
    (now : Int) (st : WidgetState) (x : String) :
    (processEscalation s₀ snap now st x).showCSAT = st.showCSAT ∨
      ((processEscalation s₀ snap now st x).showCSAT = some x ∧
        x ∉ s₀.csatSubmitted) := by
  unfold processEscalation
  cases hsnap : snap x with
  | none => exact Or.inl rfl
  | some e =>
      dsimp only
      split_ifs <;>
        first
          | exact Or.inl rfl
          | exact Or.inr ⟨rfl, by assumption⟩

theorem pollCycle_showCSAT_aux (s₀ : WidgetState) (snap : String → Option Escalation)
    (now : Int) (w₀ : Option String) :
    ∀ (l : List String) (st : WidgetState),
      (st.showCSAT = w₀ ∨ ∃ i, st.showCSAT = some i ∧ i ∉ s₀.csatSubmitted) →
      ((l.foldl (processEscalation s₀ snap now) st).showCSAT = w₀ ∨
        ∃ i, (l.foldl (processEscalation s₀ snap now) st).showCSAT = some i ∧
          i ∉ s₀.csatSubmitted)
  | [], _, h => h
  | x :: l, st, h => by
      rw [List.foldl_cons]
      apply pollCycle_showCSAT_aux s₀ snap now w₀ l
      rcases processEscalation_showCSAT s₀ snap now st x with heq | ⟨heq, hmem⟩
      · rw [heq]; exact h
      · exact Or.inr ⟨x, heq, hmem⟩

theorem pollCycle_showCSAT (s : WidgetState) (snap : String → Option Escalation)
    (now : Int) :
    (pollCycle s snap now).showCSAT = s.showCSAT ∨
      ∃ i, (pollCycle s snap now).showCSAT = some i ∧ i ∉ s.csatSubmitted :=
  pollCycle_showCSAT_aux s snap now s.showCSAT s.pendingEscalations s (Or.inl rfl)

theorem persistW_inv2 (w : WidgetState) (st : Storage)
    (hav : (persistW w st).available = true) :
    (persistW w st).csatSubmittedSlot = some w.csatSubmitted := by
  by_cases h : st.available = true
  · simp [persistW, h]
  · simp [persistW, h] at hav

theorem csatInv_of_persist (w : WidgetState) (st : Storage)
    (h1 : ∀ i ∈ w.csatSubmitted, w.showCSAT ≠ some i) :
    CsatInv ⟨w, persistW w st⟩ :=
  ⟨h1, fun hav => persistW_inv2 w st hav⟩

theorem initWidget_unavailable (st : Storage) (now : Int) (rand : String)
    (h : st.available = false) :
    initWidget st now rand = .error () := by
  simp [initWidget, loadLanguage, Storage.getItem, h]

/-- The reload step on available storage: the in-memory CSAT-submitted list is
restored from the persisted slot, the survey form is closed, and the
persistence effects leave the slot in sync. -/
theorem step_reload_csat (a : AppState) (now : Int) (rand : String)
    (hav : a.store.available = true) :
    (step a (.reload now rand)).1.widget.csatSubmitted = loadCSATSubmitted a.store ∧
    (step a (.reload now rand)).1.widget.showCSAT = none ∧
    (step a (.reload now rand)).1.store.available = true ∧
    (step a (.reload now rand)).1.store.csatSubmittedSlot =
      some (loadCSATSubmitted a.store) := by
  rcases hsid : a.store.sessionIdSlot with _ | sid <;>
    simp [step, initWidget, loadLanguage, getSessionId, Storage.getItem, persistW,
      hav, hsid]

/-- The `csatSubmitted` membership survives every event (the reset does not clear
it, and a reload restores the persisted copy, which the invariant keeps in
sync). -/
theorem step_csat_mono (a : AppState) (e : Event) (i : String) (hinv : CsatInv a)
    (h : i ∈ a.widget.csatSubmitted) : i ∈ (step a e).1.widget.csatSubmitted := by
  cases e with
  | send now nr eo ai =>
      show i ∈ (handleSend a.widget now nr eo ai).1.csatSubmitted
      rw [handleSend_csat]; exact h
  | poll snap now =>
      show i ∈ (pollCycle a.widget snap now).csatSubmitted
      rw [pollCycle_csat]; exact h
  | csatSubmit ok now =>
      show i ∈ (handleSubmitCSAT a.widget ok now).1.csatSubmitted
      rcases hcs : a.widget.showCSAT with _ | x
      · simpa [handleSubmitCSAT, hcs] using h
      · by_cases hr : a.widget.csatRating = 0
        · simpa [handleSubmitCSAT, hcs, hr] using h
        · cases ok
          · simpa [handleSubmitCSAT, hcs, hr] using h
          · simp [handleSubmitCSAT, hcs, hr]
            exact Or.inl h
  | csatSkip =>
      show i ∈ (handleSkipCSAT a.widget).csatSubmitted
      exact h
  | setRating stars => exact h
  | setFeedback text => exact h
  | setInput text => exact h
  | setLanguage l => exact h
  | newChat now rand =>
      show i ∈ (startNewChat a.widget a.store now rand).1.csatSubmitted
      exact h
  | reload now rand =>
      cases hav : a.store.available
      · have herr := initWidget_unavailable a.store now rand hav
        simp only [step, herr]
        exact h
      · have h2 := hinv.2 hav
        rw [(step_reload_csat a now rand hav).1]
        simp [loadCSATSubmitted, Storage.getItem, hav, h2]
        exact h

/-- The invariant `CsatInv` is preserved by every event. -/
theorem step_csat_inv (a : AppState) (e : Event) (hinv : CsatInv a) :
    CsatInv (step a e).1 := by
  cases e with
  | send now nr eo ai =>
      refine csatInv_of_persist _ _ fun i hi => ?_
      rw [handleSend_csat] at hi
      rw [handleSend_showCSAT]
      exact hinv.1 i hi
  | poll snap now =>
      refine csatInv_of_persist _ _ fun i hi => ?_
      rw [pollCycle_csat] at hi
      rcases pollCycle_showCSAT a.widget snap now with heq | ⟨j, heq, hj⟩
      · rw [heq]; exact hinv.1 i hi
      · rw [heq]
        intro hc
        have hji : j = i := by injection hc
        exact hj (hji ▸ hi)
  | csatSubmit ok now =>
      refine csatInv_of_persist _ _ fun i hi => ?_
      rcases hcs : a.widget.showCSAT with _ | x
      · simp [handleSubmitCSAT, hcs] at hi ⊢
      · by_cases hr : a.widget.csatRating = 0
        · simp [handleSubmitCSAT, hcs, hr] at hi ⊢
          intro hc
          exact hinv.1 i hi (hc ▸ hcs)
        · cases ok
          · simp [handleSubmitCSAT, hcs, hr] at hi ⊢
            intro hc
            exact hinv.1 i hi (hc ▸ hcs)
          · simp [handleSubmitCSAT, hcs, hr]
  | csatSkip =>
      refine csatInv_of_persist _ _ fun i hi => ?_
      simp [handleSkipCSAT]
  | setRating stars =>
      refine csatInv_of_persist _ _ fun i hi => ?_
      exact hinv.1 i hi
  | setFeedback text =>
      refine csatInv_of_persist _ _ fun i hi => ?_
      exact hinv.1 i hi
  | setInput text =>
      refine csatInv_of_persist _ _ fun i hi => ?_
      exact hinv.1 i hi
  | setLanguage l =>
      refine csatInv_of_persist _ _ fun i hi => ?_
      exact hinv.1 i hi
  | newChat now rand =>
      refine csatInv_of_persist _ _ fun i hi => ?_
      simp [startNewChat]
  | reload now rand =>
      cases hav : a.store.available
      · have herr := initWidget_unavailable a.store now rand hav
        simp only [step, herr]
        exact hinv
      · obtain ⟨h1, h2, h3, h4⟩ := step_reload_csat a now rand hav
        refine ⟨fun i hi => ?_, fun _ => ?_⟩
        · rw [h2]; simp
        · rw [h4, h1]

theorem step_success_mem (a : AppState) (e : Event) (i : String)
    (h : isCsatSuccess a e i = true) : i ∈ (step a e).1.widget.csatSubmitted := by
  cases e <;> simp [isCsatSuccess] at h
  case csatSubmit ok now =>
    obtain ⟨⟨hok, hshow⟩, hrat⟩ := h
    subst hok
    show i ∈ (handleSubmitCSAT a.widget true now).1.csatSubmitted
    simp [handleSubmitCSAT, hshow, hrat]

theorem no_success_while_submitted (tr : List Event) :
    ∀ (a : AppState) (i : String), CsatInv a → i ∈ a.widget.csatSubmitted →
      csatSuccessCount a tr i = 0 := by
  induction tr with
  | nil => intro a i _ _; rfl
  | cons e tr ih =>
      intro a i hinv hmem
      rw [csatSuccessCount]
      have hz : isCsatSuccess a e i = false := by
        cases e <;> simp [isCsatSuccess]
        intro hok hshow
        exact absurd hshow (hinv.1 i hmem)
      rw [hz]
      simp only [Bool.false_eq_true, if_false, Nat.zero_add]
      exact ih _ i (step_csat_inv a e hinv) (step_csat_mono a e i hinv hmem)
theorem csat_success_le_one (escalationId : String) (tr : List Event) :
    ∀ a : AppState, CsatInv a → csatSuccessCount a tr escalationId ≤ 1 := by
  induction tr with
  | nil => intro a _; exact Nat.zero_le 1
  | cons e tr ih =>
      intro a hinv
      rw [csatSuccessCount]
      by_cases hs : isCsatSuccess a e escalationId = true
      · rw [if_pos hs]
        have h0 : csatSuccessCount (step a e).1 tr escalationId = 0 :=
          no_success_while_submitted tr (step a e).1 escalationId
            (step_csat_inv a e hinv) (step_success_mem a e escalationId hs)
        omega
      · rw [if_neg hs, Nat.zero_add]
        exact ih (step a e).1 (step_csat_inv a e hinv)

theorem step_prompt_guard (a : AppState) (e : Event) (i : String)
    (h1 : (step a e).1.widget.showCSAT = some i)
    (hne : a.widget.showCSAT ≠ some i) : i ∉ a.widget.csatSubmitted := by
  cases e with
  | send now nr eo ai =>
      rw [show (step a (.send now nr eo ai)).1.widget =
        (handleSend a.widget now nr eo ai).1 from rfl, handleSend_showCSAT] at h1
      exact absurd h1 hne
  | poll snap now =>
      rw [show (step a (.poll snap now)).1.widget =
        pollCycle a.widget snap now from rfl] at h1
      rcases pollCycle_showCSAT a.widget snap now with heq | ⟨j, heq, hj⟩
      · exact absurd (heq ▸ h1) hne
      · have hji : j = i := by
          rw [heq] at h1
          injection h1
        exact hji ▸ hj
  | csatSubmit ok now =>
      rw [show (step a (.csatSubmit ok now)).1.widget =
        (handleSubmitCSAT a.widget ok now).1 from rfl] at h1
      rcases hcs : a.widget.showCSAT with _ | x
      · simp [handleSubmitCSAT, hcs] at h1
      · by_cases hr : a.widget.csatRating = 0
        · simp [handleSubmitCSAT, hcs, hr] at h1
          exact absurd (hcs.trans (by rw [h1])) hne
        · cases ok
          · simp [handleSubmitCSAT, hcs, hr] at h1
            exact absurd (hcs.trans (by rw [h1])) hne
          · simp [handleSubmitCSAT, hcs, hr] at h1
  | csatSkip =>
      rw [show (step a .csatSkip).1.widget = handleSkipCSAT a.widget from rfl] at h1
      simp [handleSkipCSAT] at h1
  | setRating stars => exact absurd h1 hne
  | setFeedback text => exact absurd h1 hne
  | setInput text => exact absurd h1 hne
  | setLanguage l => exact absurd h1 hne
  | newChat now rand =>
      rw [show (step a (.newChat now rand)).1.widget =
        (startNewChat a.widget a.store now rand).1 from rfl] at h1
      simp [startNewChat] at h1
  | reload now rand =>
      cases hav : a.store.available
      · have herr := initWidget_unavailable a.store now rand hav
        simp only [step, herr] at h1
        exact absurd h1 hne
      · rw [(step_reload_csat a now rand hav).2.1] at h1
        exact absurd h1 (by simp)

theorem stampHistory_length (c : Int) :
    ∀ (l : List HistMsg) (k : Nat), (stampHistory c k l).length = l.length
  | [], _ => rfl
  | _ :: rest, k => by
      simp [stampHistory, stampHistory_length c rest (k + 1)]

theorem stampHistory_get (c : Int) :
    ∀ (l : List HistMsg) (k i : Nat) (hi : i < (stampHistory c k l).length),
      ((stampHistory c k l).get ⟨i, hi⟩).timestamp = c + ((k + i : Nat) : Int) * 1000
  | [], k, i, hi => by simp [stampHistory] at hi
  | m :: rest, k, 0, hi => by simp [stampHistory]
  | m :: rest, k, i + 1, hi => by
      simp only [stampHistory, List.get_cons_succ]
      rw [stampHistory_get c rest (k + 1) i _]
      push_cast
      ring_nf

theorem stampHistory_mem (c : Int) :
    ∀ (l : List HistMsg) (k : Nat) (e : TranscriptEntry), e ∈ stampHistory c k l →
      e.etype = .history ∧ c + (k : Int) * 1000 ≤ e.timestamp ∧
        e.timestamp < c + ((k + l.length : Nat) : Int) * 1000
  | [], k, e, he => by simp [stampHistory] at he
  | m :: rest, k, e, he => by
      simp only [stampHistory, List.mem_cons] at he
      rcases he with rfl | he
      · refine ⟨rfl, le_refl _, ?_⟩
        simp only [List.length_cons]
        push_cast
        omega
      · obtain ⟨h1, h2, h3⟩ := stampHistory_mem c rest (k + 1) e he
        refine ⟨h1, ?_, ?_⟩
        · refine le_trans ?_ h2
          push_cast
          omega
        · simp only [List.length_cons]
          push_cast at h3 ⊢
          omega

theorem realEntries_not_history (t : Escalation) (m : TranscriptEntry)
    (hm : m ∈ realEntries t) : m.etype ≠ .history := by
  unfold realEntries at hm
  rcases List.mem_append.mp hm with h | h <;>
    · obtain ⟨x, _, rfl⟩ := List.mem_map.mp h
      simp

theorem sorted_get_lt (l : List TranscriptEntry) (hs : List.Sorted entryLE l)
    (p q : Fin l.length) (h : (l.get p).timestamp < (l.get q).timestamp) : p < q := by
  by_contra hpq
  push_neg at hpq
  rcases eq_or_lt_of_le hpq with heq | hlt
  · rw [heq] at h
    exact lt_irrefl _ h
  · have hle : entryLE (l.get q) (l.get p) := List.pairwise_iff_get.mp hs q p hlt
    exact absurd h (not_lt.mpr hle)

theorem mergedTranscript_sorted (t : Escalation) :
    List.Sorted entryLE (mergedTranscript t) :=
  List.sorted_insertionSort entryLE (buildAllMessages t)

theorem mergedTranscript_mem (t : Escalation) (e : TranscriptEntry)
    (he : e ∈ mergedTranscript t) : e ∈ buildAllMessages t :=
  (List.perm_insertionSort entryLE (buildAllMessages t)).mem_iff.mp he

/-! ## Claims -/

/-- C10: for every input that is empty or whitespace-only, `handleSend` is a
no-op: the state (timeline, tracked escalations, and everything else) is
returned unchanged and no backend call is issued. -/
theorem c10_blank_input_noop (s : WidgetState) (now nowReply : Int) (escOk : Bool)
    (aiResp : Option ChatResponseData) (h : jsTrim s.input = "") :
    handleSend s now nowReply escOk aiResp = (s, []) := by
  simp [handleSend, h]

/-- Witness for C10 at the whitespace-only input `"   "`. -/
theorem c10_blank_input_noop_witness :
    jsTrim ({ baseWidget with input := "   " } : WidgetState).input = "" ∧
      handleSend { baseWidget with input := "   " } 5 6 true none =
        ({ baseWidget with input := "   " }, []) :=
  ⟨by decide, c10_blank_input_noop _ 5 6 true none (by decide)⟩

/-- C1 counterexample: the per-escalation shown-message counts are *not*
persisted.  After a first poll cycle observes a snapshot with two operator
messages, repeat cycles (same page lifetime) leave the timeline at length 2 —
but after the persisted session state is reloaded, the very next cycle on the
identical snapshot appends the same two operator messages again, growing the
timeline to length 4.  This contradicts the claim for cycles that run after a
reload. -/
theorem c1_counterexample :
    c1AfterFirst.messages.length = 2 ∧
      (pollCycle c1AfterFirst snapTwoOps 2000).messages.length = 2 ∧
      ((initWidget c1Store 5000 "r").toOption.map fun p =>
          (pollCycle p.1 snapTwoOps 6000).messages.length) = some 4 := by
  decide

/-- C1 (amended): within one page lifetime, poll cycles are idempotent on
identical backend snapshots — a second cycle over the same snapshot leaves
the entire widget state (in particular the timeline) unchanged, and so does
any number of further cycles.  (After a reload of the persisted session state
the shown-message counts reset and the operator messages are appended again;
see the counterexample.) -/
theorem c1_poll_snapshot_stable (s : WidgetState) (snap : String → Option Escalation)
    (t₁ t₂ : Int) :
    pollCycle (pollCycle s snap t₁) snap t₂ = pollCycle s snap t₁ ∧
      ∀ ts : List Int,
        ts.foldl (fun st t => pollCycle st snap t) (pollCycle s snap t₁) =
          pollCycle s snap t₁ := by
  refine ⟨pollCycle_idempotent s snap t₁ t₂, ?_⟩
  intro ts
  induction ts with
  | nil => rfl
  | cons t ts ih =>
      rw [List.foldl_cons, pollCycle_idempotent s snap t₁ t]
      exact ih

/-- C3 counterexample: starting from a session tracking `ESC-1`, the concrete
trace `c3Trace` (resolution observed → survey dismissed → same escalation
re-tracked by a new tool call → resolution observed again → failed submission
→ successful submission) invokes the `submitCSAT` backend operation twice for
`ESC-1` and shows the survey prompt twice, contradicting both the
at-most-once-invocation clause and the only-on-first-resolution clause. -/
theorem c3_counterexample :
    csatCallCount c3Start c3Trace "ESC-1" = 2 ∧
      csatPromptCount c3Start c3Trace "ESC-1" = 2 := by
  decide

/-- C3 (amended): per session (under the survey-gate invariant `CsatInv`,
which holds for a fresh session and is preserved by every event), at most one
*successful* `submitCSAT` invocation occurs per escalation identifier — a
failed attempt leaves the form open and may be retried — and whenever the
survey prompt becomes shown for an identifier, that identifier is not in the
CSAT-submitted set. -/
theorem c3_csat_at_most_once (a : AppState) (tr : List Event) (escalationId : String)
    (hinv : CsatInv a) :
    csatSuccessCount a tr escalationId ≤ 1 ∧
      ∀ e, (step a e).1.widget.showCSAT = some escalationId →
        a.widget.showCSAT ≠ some escalationId →
        escalationId ∉ a.widget.csatSubmitted :=
  ⟨csat_success_le_one escalationId tr a hinv,
    fun e h1 hne => step_prompt_guard a e escalationId h1 hne⟩

/-- Witness for C3 (amended): the invariant holds for the concrete start
state, and along `c3Trace` at most one successful submission occurs. -/
theorem c3_csat_at_most_once_witness :
    CsatInv c3Start ∧ csatSuccessCount c3Start c3Trace "ESC-1" ≤ 1 :=
  ⟨by decide, (c3_csat_at_most_once c3Start c3Trace "ESC-1" (by decide)).1⟩

/-- C2: routing of outgoing visitor messages.  With no tracked escalation the
only backend call issued by `handleSend` is to the assistant endpoint; with at
least one tracked escalation the only call is to the escalation-message
endpoint of the earliest-tracked one (the head of the list), and the
assistant endpoint is not called. -/
theorem c2_routing (s : WidgetState) (now nowReply : Int) (escOk : Bool)
    (aiResp : Option ChatResponseData) (h : jsTrim s.input ≠ "") :
    (s.pendingEscalations = [] →
      (handleSend s now nowReply escOk aiResp).2 =
        [Call.assistantSend (jsTrim s.input) (getConversationHistory s.messages)
          s.language none]) ∧
    (∀ e rest, s.pendingEscalations = e :: rest →
      (handleSend s now nowReply escOk aiResp).2 =
        [Call.escalationSend e (jsTrim s.input)]) := by
  constructor
  · intro hp
    cases aiResp <;> simp [handleSend, h, getActiveEscalationId, hp]
  · intro e rest hp
    cases escOk <;> simp [handleSend, h, getActiveEscalationId, hp]

/-- Witness for C2: the question routes to the assistant with no escalation
tracked, and to escalation `ESC-1` once it is tracked. -/
theorem c2_routing_witness :
    jsTrim askWidget.input ≠ "" ∧
      (handleSend askWidget 10 11 true none).2 =
        [Call.assistantSend (jsTrim askWidget.input)
          (getConversationHistory askWidget.messages) askWidget.language none] ∧
      (handleSend escWidget 10 11 true none).2 =
        [Call.escalationSend "ESC-1" (jsTrim escWidget.input)] :=
  ⟨by decide, (c2_routing askWidget 10 11 true none (by decide)).1 rfl,
    (c2_routing escWidget 10 11 true none (by decide)).2 "ESC-1" [] rfl⟩

/-- C8: when a send fails (assistant-directed, `aiResp = none`, or
operator-directed, `escOk = false`), a localized fallback message in the
session's current language is appended as an assistant-origin entry, and the
visitor's own message — appended before the send — remains in the timeline. -/
theorem c8_send_failure_fallback (s : WidgetState) (now nowReply : Int)
    (aiResp : Option ChatResponseData) (h : jsTrim s.input ≠ "") :
    (s.pendingEscalations = [] →
      (handleSend s now nowReply true none).1.messages =
        s.messages ++ [visitorMessage now (jsTrim s.input),
          addBotMessage nowReply (fallbackText s.language) none none none]) ∧
    (∀ e rest, s.pendingEscalations = e :: rest →
      (handleSend s now nowReply false aiResp).1.messages =
        s.messages ++ [visitorMessage now (jsTrim s.input),
          addBotMessage nowReply (fallbackText s.language) none none none]) ∧
    (addBotMessage nowReply (fallbackText s.language) none none none).isBot = true := by
  refine ⟨fun hp => ?_, fun e rest hp => ?_, rfl⟩ <;>
    simp [handleSend, h, getActiveEscalationId, hp]

/-- Witness for C8: a failed assistant-directed send appends the Russian
fallback after the visitor's message. -/
theorem c8_send_failure_fallback_witness :
    jsTrim askWidget.input ≠ "" ∧
      (handleSend askWidget 10 11 true none).1.messages =
        askWidget.messages ++ [visitorMessage 10 (jsTrim askWidget.input),
          addBotMessage 11 (fallbackText askWidget.language) none none none] :=
  ⟨by decide, (c8_send_failure_fallback askWidget 10 11 none (by decide)).1 rfl⟩

/-- C7: a CSAT submission attempt with the form open and a rating chosen
issues the `submitCSAT` call; on backend failure the state is completely
unchanged (no timeline append, no addition to the CSAT-submitted set), and on
success the identifier is appended to the CSAT-submitted set and a thank-you
message is appended to the timeline. -/
theorem c7_csat_submit_error_handling (s : WidgetState) (escalationId : String)
    (now : Int) (h₁ : s.showCSAT = some escalationId) (h₂ : s.csatRating ≠ 0) :
    (handleSubmitCSAT s false now).1 = s ∧
    (handleSubmitCSAT s false now).2 =
      [Call.csatSubmit escalationId s.csatRating
        (if s.csatFeedback = "" then none else some s.csatFeedback)] ∧
    (handleSubmitCSAT s true now).1.csatSubmitted = s.csatSubmitted ++ [escalationId] ∧
    (handleSubmitCSAT s true now).1.messages =
      s.messages ++ [csatThanksMessage escalationId s.csatRating now] := by
  simp [handleSubmitCSAT, h₁, h₂]

/-- Witness for C7: a state with the survey open for `ESC-1` and rating 5. -/
theorem c7_csat_submit_error_handling_witness :
    ({ baseWidget with showCSAT := some "ESC-1", csatRating := 5 } : WidgetState).showCSAT
        = some "ESC-1" ∧
      (handleSubmitCSAT { baseWidget with showCSAT := some "ESC-1", csatRating := 5 }
          false 77).1 = { baseWidget with showCSAT := some "ESC-1", csatRating := 5 } :=
  ⟨rfl, (c7_csat_submit_error_handling _ "ESC-1" 77 rfl (by decide)).1⟩

/-- C9 counterexample: with unavailable storage, `getSessionId` raises instead
of degrading to an ephemeral in-memory identifier — the claim that obtaining
the session identifier never raises is false. -/
theorem c9_counterexample :
    getSessionId unavailableStorage 0 "x" = .error () := rfl

/-- C9 (amended): when storage is unavailable, loading the timeline, the
tracked-escalation list and the CSAT-submitted set never raises and degrades
to empty lists, but obtaining the session identifier propagates the storage
error to the caller (there is no ephemeral fallback identifier). -/
theorem c9_storage_degradation (st : Storage) (now : Int) (rand : String)
    (h : st.available = false) :
    loadMessages st = [] ∧ loadEscalations st = [] ∧ loadCSATSubmitted st = [] ∧
      getSessionId st now rand = .error () := by
  refine ⟨?_, ?_, ?_, ?_⟩ <;>
    simp [loadMessages, loadEscalations, loadCSATSubmitted, getSessionId,
      Storage.getItem, h, Except.bind]

/-- Witness for C9 (amended) at the unavailable storage fixture. -/
theorem c9_storage_degradation_witness :
    unavailableStorage.available = false ∧ loadMessages unavailableStorage = [] :=
  ⟨rfl, (c9_storage_degradation unavailableStorage 0 "x" rfl).1⟩

/-- C4 counterexample: the "new chat" reset does not clear the CSAT-submitted
set — starting from a state whose CSAT-submitted set is `["ESC-1"]`, it is
still `["ESC-1"]` (nonempty) after the reset, contradicting the claim that
the post-reset CSAT-submitted set is empty. -/
theorem c4_counterexample :
    (step ⟨ratedWidget, baseStorage⟩ (.newChat 99 "z")).1.widget.csatSubmitted ≠ [] := by
  decide

/-- C4 (amended): after the "new chat" reset the timeline is empty, the
tracked-escalation set is empty, the survey form state is cleared, and a
freshly generated session identifier is persisted — but the CSAT-submitted
set is left unchanged (it is not cleared). -/
theorem c4_reset_state (a : AppState) (now : Int) (rand : String)
    (h : a.store.available = true) :
    (step a (.newChat now rand)).1.widget.messages = [] ∧
    (step a (.newChat now rand)).1.widget.pendingEscalations = [] ∧
    (step a (.newChat now rand)).1.widget.showCSAT = none ∧
    (step a (.newChat now rand)).1.widget.csatSubmitted = a.widget.csatSubmitted ∧
    (step a (.newChat now rand)).1.store.sessionIdSlot = some s!"session-{now}-{rand}" := by
  simp [step, startNewChat, persistW, h]

/-- Witness for C4 (amended) at a concrete state with one message. -/
theorem c4_reset_state_witness :
    baseStorage.available = true ∧
      (step ⟨ratedWidget, baseStorage⟩ (.newChat 99 "z")).1.widget.messages = [] :=
  ⟨rfl, (c4_reset_state _ 99 "z" rfl).1⟩

/-- C5 counterexample: in the merged operator transcript of `c5Ticket`, the
second history-snapshot entry (synthetic timestamp 1000) is ordered *after*
the real client message at timestamp 500, and its synthetic timestamp
*collides* with the real client timestamp 1000 — refuting both the
no-collision clause and the snapshot-before-real clause of the claim. -/
theorem c5_counterexample :
    ((mergedTranscript c5Ticket).get? 1).map TranscriptEntry.etype =
        some .client ∧
      ((mergedTranscript c5Ticket).get? 2).map TranscriptEntry.etype =
        some .history ∧
      ((mergedTranscript c5Ticket).get? 2).map TranscriptEntry.timestamp =
        ((mergedTranscript c5Ticket).get? 3).map TranscriptEntry.timestamp ∧
      ((mergedTranscript c5Ticket).get? 3).map TranscriptEntry.etype =
        some .client := by
  decide

/-- C5 (amended): snapshot entries receive synthetic strictly increasing
timestamps `created_at + idx·1000` anchored at the escalation's creation time;
the merged list is sorted by timestamp, and sortedness preserves the
snapshot's relative order (strictly smaller timestamps come strictly
earlier); and *provided* every real message timestamp is at least
`created_at + n·1000` (beyond the synthetic window of the `n` snapshot
entries), every snapshot-origin entry is ordered before every real-timestamped
entry.  Synthetic timestamps may collide with real ones inside that window. -/
theorem c5_merge_ordering (t : Escalation) :
    (∀ (i : Nat) (hi : i <
        (stampHistory t.created_at 0 (t.conversation_history.getD [])).length),
      ((stampHistory t.created_at 0 (t.conversation_history.getD [])).get
          ⟨i, hi⟩).timestamp = t.created_at + (i : Int) * 1000) ∧
    List.Sorted entryLE (mergedTranscript t) ∧
    (∀ p q : Fin (mergedTranscript t).length,
      ((mergedTranscript t).get p).timestamp < ((mergedTranscript t).get q).timestamp →
        p < q) ∧
    ((∀ m ∈ realEntries t,
        t.created_at + ((t.conversation_history.getD []).length : Int) * 1000 ≤
          m.timestamp) →
      ∀ p q : Fin (mergedTranscript t).length,
        ((mergedTranscript t).get p).etype = .history →
        ((mergedTranscript t).get q).etype ≠ .history →
        p < q) := by
  refine ⟨?_, mergedTranscript_sorted t, ?_, ?_⟩
  · intro i hi
    have h := stampHistory_get t.created_at (t.conversation_history.getD []) 0 i hi
    rwa [Nat.zero_add] at h
  · exact fun p q h => sorted_get_lt _ (mergedTranscript_sorted t) p q h
  · intro H p q hp hq
    have hmp : (mergedTranscript t).get p ∈ buildAllMessages t :=
      mergedTranscript_mem t _ (List.get_mem _ _ _)
    have hmq : (mergedTranscript t).get q ∈ buildAllMessages t :=
      mergedTranscript_mem t _ (List.get_mem _ _ _)
    have hpbound : ((mergedTranscript t).get p).timestamp <
        t.created_at + ((t.conversation_history.getD []).length : Int) * 1000 := by
      rcases List.mem_append.mp hmp with hs | hr
      · have := (stampHistory_mem t.created_at (t.conversation_history.getD []) 0 _
          hs).2.2
        rwa [Nat.zero_add] at this
      · exact absurd hp (realEntries_not_history t _ hr)
    have hqbound : t.created_at +
        ((t.conversation_history.getD []).length : Int) * 1000 ≤
          ((mergedTranscript t).get q).timestamp := by
      rcases List.mem_append.mp hmq with hs | hr
      · exact absurd ((stampHistory_mem t.created_at
          (t.conversation_history.getD []) 0 _ hs).1) hq
      · exact H _ hr
    exact sorted_get_lt _ (mergedTranscript_sorted t) p q
      (lt_of_lt_of_le hpbound hqbound)

/-- Witness for C5 (amended): for `c5LateTicket` all real timestamps lie
beyond the synthetic window, and the theorem places every snapshot entry
before every real entry. -/
theorem c5_merge_ordering_witness :
    (∀ m ∈ realEntries c5LateTicket,
      c5LateTicket.created_at +
          ((c5LateTicket.conversation_history.getD []).length : Int) * 1000 ≤
        m.timestamp) ∧
    (∀ p q : Fin (mergedTranscript c5LateTicket).length,
      ((mergedTranscript c5LateTicket).get p).etype = .history →
      ((mergedTranscript c5LateTicket).get q).etype ≠ .history →
      p < q) :=
  ⟨by decide, (c5_merge_ordering c5LateTicket).2.2.2 (by decide)⟩

/-- C6 counterexample: the poller stamps discovered operator messages with
their backend timestamps, so after a poll that finds an operator reply older
than the last locally stamped entry the timeline is no longer monotone
non-decreasing by `createdAt` — the claimed invariant fails after a
poller append. -/
theorem c6_counterexample :
    ¬ timelineMonotone (pollCycle lateWidget snapEarlyOp 100).messages := by
  decide

/-- C6 (amended): the appends the widget stamps with its own clock — the
visitor message, assistant reply, fallback message and CSAT thank-you —
preserve timeline monotonicity whenever the clock readings are not earlier
than the existing timestamps; the poller's appends carry backend timestamps
and are not covered by the invariant. -/
theorem c6_local_appends_monotone (s : WidgetState) (now nowReply : Int)
    (escOk ok : Bool) (aiResp : Option ChatResponseData)
    (hmono : timelineMonotone s.messages)
    (hnow : ∀ m ∈ s.messages, m.timestamp ≤ now) (hreply : now ≤ nowReply) :
    timelineMonotone (handleSend s now nowReply escOk aiResp).1.messages ∧
    timelineMonotone (handleSubmitCSAT s ok now).1.messages := by
  constructor
  · by_cases h : jsTrim s.input = ""
    · simpa [handleSend, h] using hmono
    · have happ : ∀ c src ar tc,
          timelineMonotone (s.messages ++ [visitorMessage now (jsTrim s.input),
            addBotMessage nowReply c src ar tc]) := by
        intro c src ar tc
        exact monotone_append_two _ _ _ hmono hnow hreply
      rcases hpe : s.pendingEscalations with _ | ⟨e, rest⟩
      · cases aiResp with
        | none => simpa [handleSend, h, getActiveEscalationId, hpe] using happ _ _ _ _
        | some r => simpa [handleSend, h, getActiveEscalationId, hpe] using happ _ _ _ _
      · cases escOk <;>
          simpa [handleSend, h, getActiveEscalationId, hpe] using happ _ _ _ _
  · rcases hcs : s.showCSAT with _ | id
    · simpa [handleSubmitCSAT, hcs] using hmono
    · by_cases hr : s.csatRating = 0
      · simpa [handleSubmitCSAT, hcs, hr] using hmono
      · cases ok
        · simpa [handleSubmitCSAT, hcs, hr] using hmono
        · have := monotone_append_one s.messages
            (csatThanksMessage id s.csatRating now) hmono hnow
          simpa [handleSubmitCSAT, hcs, hr] using this

/-- Witness for C6 (amended): a send on an empty, trivially monotone timeline
keeps it monotone. -/
theorem c6_local_appends_monotone_witness :
    timelineMonotone askWidget.messages ∧
      (∀ m ∈ askWidget.messages, m.timestamp ≤ 10) ∧ (10 : Int) ≤ 11 ∧
      timelineMonotone (handleSend askWidget 10 11 true none).1.messages :=
  ⟨by decide, by decide, by decide,
    (c6_local_appends_monotone askWidget 10 11 true true none (by decide)
      (by decide) (by decide)).1⟩

end HelpDesk
